import Mathlib

/-!
Verification of the opengcs storage / bridge core against its
natural-language specification.

The Go source is shallowly embedded: pure computations become Lean
functions, pointer mutation becomes explicit state passing, and the
external world (kernel mount/unmount syscalls, sysfs directory reads,
file writes) is passed in as an explicit environment value describing
the outcome the kernel would produce.  Fallible Go functions returning
`(T, error)` become `Except GoError T` or `Option GoError × T`.
-/

/-- Errors as produced by the Go code: either a fresh error with a message
(`errors.New` / `fmt.Errorf`), a wrapped error (`errors.Wrap/Wrapf`), or the
distinguished os not-exist error recognised by `os.IsNotExist`. -/
inductive GoError where
  | msg (m : String)
  | wrap (m : String) (cause : GoError)
  | notExist
deriving DecidableEq, Repr

/-- Linux `syscall.MS_RDONLY` (mount(2) flag). -/
def MS_RDONLY : Nat := 1

/-- Linux `syscall.O_RDONLY` (open(2) flag; its numeric value is 0). -/
def O_RDONLY : Nat := 0

namespace storage

/-- `ErrPathNotMounted` from internal/storage: typed error returned when a
Mount is Unmounted more than once. -/
def ErrPathNotMounted : GoError := GoError.msg "path not mounted"

/-- The `Mount` struct from internal/storage (the `mu sync.Mutex` field is
dropped: the embedding is sequential). -/
structure Mount where
  target : String
  mounted : Bool
  refCount : Int := 0
deriving DecidableEq, Repr

/-- `storage.GetOrCreateMount` from internal/storage.

`mountErr` is the outcome of the injected `syscallMount` test seam
(`none` = the kernel mount succeeded).  The second component of the result
counts how many times the `cleanup` callback argument was invoked by the
function body; the Go body never mentions `cleanup`, so the count is 0 on
both paths. -/
def GetOrCreateMount (mountErr : Option GoError) (source target : String)
    (fstype : String) (flags : Nat) (data : String) :
    Except GoError Mount × Nat :=
  match mountErr with
  | some e =>
      (Except.error (GoError.wrap
        ("failed to mount source: " ++ source ++ " to target: " ++ target) e), 0)
  | none => (Except.ok { target := target, mounted := true }, 0)

/-- `Mount.Unmount` from internal/storage.  `unmountErr` is the outcome of
the injected `syscallUnmount` seam.  Returns the error (if any) and the
updated mount value. -/
def Mount.Unmount (m : Mount) (unmountErr : Option GoError) (flags : Int) :
    Option GoError × Mount :=
  if !m.mounted then
    (some ErrPathNotMounted, m)
  else
    match unmountErr with
    | some e => (some (GoError.wrap ("failed to unmount path: " ++ m.target) e), m)
    | none => (none, { m with mounted := false })

end storage

namespace scsi

/-- The `Scsi` struct from internal/storage/scsi (the mutex is dropped:
the embedding is sequential).  As in Go, an empty `source` string means
"not yet resolved". -/
structure Scsi where
  key : String
  controller : Nat
  lun : Nat
  source : String := ""
  resolveError : Option GoError := none
  refCount : Int := 0
deriving DecidableEq, Repr

/-- `scsiDevicesKey` from internal/storage/scsi:
`fmt.Sprintf("0:0:%d:%d", controller, lun)`. -/
def scsiDevicesKey (controller lun : Nat) : String :=
  "0:0:" ++ toString controller ++ ":" ++ toString lun

/-- Outcome of the sysfs directory scan performed by `Scsi.resolve` through
the `ioutilReadDir` seam.  The retry loop in the source only ever exits in
one of three ways, which this environment value names directly:
the listing succeeds with a list of entry names, the listing fails with an
error that is not "not exist" (returned on the first such failure), or the
listing keeps returning "not exist" until the 2 s deadline elapses. -/
inductive ReadDirResult where
  | names (l : List String)
  | errOther (e : GoError)
  | notExistUntilTimeout
deriving DecidableEq, Repr

/-- `Scsi.resolve` from internal/storage/scsi.  Returns
`(error?, updated entry, scanned)` where `scanned` records whether the body
reached the sysfs directory-scan loop at all (`false` on the two cached
fast paths at the top of the function). -/
def Scsi.resolve (s : Scsi) (rd : ReadDirResult) : Option GoError × Scsi × Bool :=
  if s.source != "" then
    (none, s, false)
  else if h : s.resolveError.isSome then
    (some (s.resolveError.get h), s, false)
  else
    let path := "/sys/bus/scsi/devices/" ++ s.key ++ "/block"
    match rd with
    | ReadDirResult.errOther e =>
        (some e, { s with resolveError := some e }, true)
    | ReadDirResult.notExistUntilTimeout =>
        let e := GoError.wrap ("timed out waiting for SCSI device: " ++ path)
          GoError.notExist
        (some e, { s with resolveError := some e }, true)
    | ReadDirResult.names l =>
        match l with
        | [] =>
            let e := GoError.msg
              ("no matching device names found for SCSI device: " ++ path)
            (some e, { s with resolveError := some e }, true)
        | [n] =>
            (none, { s with source := "/dev/" ++ n }, true)
        | _ :: _ :: _ =>
            let e := GoError.msg
              ("more than one block device could match SCSI device: " ++ path)
            (some e, { s with resolveError := some e }, true)

/-- The process-wide `scsiDevices sync.Map`, sequentially: an association
list from key to entry. -/
def ScsiRegistry := List (String × Scsi)

/-- `sync.Map.Load`. -/
def ScsiRegistry.load (r : ScsiRegistry) (k : String) : Option Scsi :=
  match r.find? (fun p => p.1 == k) with
  | some p => some p.2
  | none => none

/-- `sync.Map.Store` (replace the binding for `k`, or add it). -/
def ScsiRegistry.store (r : ScsiRegistry) (k : String) (s : Scsi) : ScsiRegistry :=
  match r with
  | [] => [(k, s)]
  | p :: rest =>
      if p.1 == k then (k, s) :: rest
      else p :: ScsiRegistry.store rest k s

/-- `sync.Map.Delete`. -/
def ScsiRegistry.del (r : ScsiRegistry) (k : String) : ScsiRegistry :=
  r.filter (fun p => !(p.1 == k))

/-- `scsi.OpenDevice` from internal/storage/scsi.  `LoadOrStore` then
`resolve`; on resolve failure the entry is deleted from the registry and
the error surfaced, otherwise the (resolved) entry is kept.  Because Go
mutates the entry through a pointer held by the map, the embedding writes
the updated entry back into the registry on the success path. -/
def OpenDevice (reg : ScsiRegistry) (controller lun : Nat) (rd : ReadDirResult) :
    Except GoError Scsi × ScsiRegistry :=
  let key := scsiDevicesKey controller lun
  let actual :=
    match reg.load key with
    | some s => s
    | none => { key := key, controller := controller, lun := lun }
  let reg1 := reg.store key actual
  match actual.resolve rd with
  | (some e, _, _) => (Except.error e, reg1.del key)
  | (none, s1, _) => (Except.ok s1, reg1.store key s1)

/-- `Scsi.eject` from internal/storage/scsi.  `openErr` is the outcome of
the `osOpenFile` seam on the sysfs delete node; `writeErr` the outcome of
the subsequent `Write` (both failures are only logged by the source, never
surfaced).  The result is `none` when the body panics (refcount
underflow); otherwise `(entry, registry, writes)` where `writes` lists the
`(path, bytes)` writes issued to the delete node.  Note the source deletes
the registry binding for `s.source`, not for `s.key`. -/
def Scsi.eject (s : Scsi) (reg : ScsiRegistry)
    (openErr writeErr : Option GoError) :
    Option (Scsi × ScsiRegistry × List (String × String)) :=
  let rc := s.refCount - 1
  if rc < 0 then
    none
  else if rc = 0 then
    let path := "/sys/bus/scsi/devices/" ++ s.key ++ "/delete"
    let writes :=
      match openErr with
      | some _ => []
      | none => [(path, "1\n")]
    some ({ s with refCount := rc }, reg.del s.source, writes)
  else
    some ({ s with refCount := rc }, reg, [])

/-- `Scsi.MountTo` from internal/storage/scsi: increment `refCount`, then
hand off to `storage.GetOrCreateMount` with fstype ext4 and the
readonly-dependent flags/data, passing `s.eject` as the cleanup callback.
The final `Nat` is the number of times the mount primitive invoked that
callback (forwarded from `GetOrCreateMount`). -/
def Scsi.MountTo (s : Scsi) (target : String) (readonly : Bool)
    (mountErr : Option GoError) :
    Scsi × Except GoError storage.Mount × Nat :=
  let s1 := { s with refCount := s.refCount + 1 }
  let flags := if readonly then MS_RDONLY else 0
  let data := if readonly then "noload" else ""
  let (res, cleanupCalls) :=
    storage.GetOrCreateMount mountErr s.source target "ext4" flags data
  (s1, res, cleanupCalls)

end scsi

namespace pmem

/-- The `Pmem` struct from internal/storage/pmem (mutex dropped). -/
structure Pmem where
  deviceNumber : Nat
  refCount : Int := 0
deriving DecidableEq, Repr

/-- `pmemDeviceKey`: `fmt.Sprintf("%d", deviceNumber)`. -/
def pmemDeviceKey (deviceNumber : Nat) : String :=
  toString deviceNumber

/-- The process-wide `pmemDevices sync.Map`, sequentially. -/
def PmemRegistry := List (String × Pmem)

/-- `sync.Map.Load`. -/
def PmemRegistry.load (r : PmemRegistry) (k : String) : Option Pmem :=
  match r.find? (fun p => p.1 == k) with
  | some p => some p.2
  | none => none

/-- `sync.Map.Store` (replace the binding for `k`, or add it). -/
def PmemRegistry.store (r : PmemRegistry) (k : String) (s : Pmem) : PmemRegistry :=
  match r with
  | [] => [(k, s)]
  | p :: rest =>
      if p.1 == k then (k, s) :: rest
      else p :: PmemRegistry.store rest k s

/-- `pmem.OpenDevice` from internal/storage/pmem: a bare `LoadOrStore`
under the decimal key followed by `return actualI.(*Pmem), nil` — the body
has no failure path even though the signature carries an error result. -/
def OpenDevice (reg : PmemRegistry) (deviceNumber : Nat) :
    Except GoError Pmem × PmemRegistry :=
  let key := pmemDeviceKey deviceNumber
  match reg.load key with
  | some p => (Except.ok p, reg)
  | none =>
      let p : Pmem := { deviceNumber := deviceNumber }
      (Except.ok p, reg.store key p)

/-- `Pmem.unmount` from internal/storage/pmem: decrement `refCount`,
panicking (`none`) on underflow; nothing else. -/
def Pmem.unmount (p : Pmem) : Option Pmem :=
  let rc := p.refCount - 1
  if rc < 0 then none else some { p with refCount := rc }

/-- `Pmem.MountTo` from internal/storage/pmem: increment `refCount`, then
hand off to `storage.GetOrCreateMount` with source `/dev/pmem<n>`, fstype
ext4, `MS_RDONLY` and `noload,dax`, passing `p.unmount` as the cleanup
callback.  The `Nat` counts invocations of that callback by the mount
primitive. -/
def Pmem.MountTo (p : Pmem) (target : String) (mountErr : Option GoError) :
    Pmem × Except GoError storage.Mount × Nat :=
  let p1 := { p with refCount := p.refCount + 1 }
  let (res, cleanupCalls) :=
    storage.GetOrCreateMount mountErr ("/dev/pmem" ++ toString p.deviceNumber)
      target "ext4" MS_RDONLY "noload,dax"
  (p1, res, cleanupCalls)

end pmem

namespace overlay

/-- Environment for `overlay.Mount`: outcomes of the three `osMkdirAll`
calls (in source order: upperdir, workdir, rootfs) and of the
`syscallMount` call. -/
structure Env where
  mkdirUpperErr : Option GoError := none
  mkdirWorkErr : Option GoError := none
  mkdirRootfsErr : Option GoError := none
  mountErr : Option GoError := none
deriving DecidableEq, Repr

/-- A recorded kernel mount call: source, target, fstype, flags, data. -/
structure MountCall where
  source : String
  target : String
  fstype : String
  flags : Nat
  data : String
deriving DecidableEq, Repr

/-- The observable outcome of one `overlay.Mount` invocation: the returned
error (if any), the directories the invocation created (in creation
order), the directories it removed again before returning (in the LIFO
order the deferred cleanups run), and the kernel mount calls it issued. -/
structure Result where
  err : Option GoError
  created : List String
  removed : List String
  mountCalls : List MountCall
deriving DecidableEq, Repr

/-- `overlay.Mount` from the overlay package.  Mirrors the source
control flow: readonly usage check; create upperdir / workdir / rootfs,
each with a deferred recursive removal that fires only when the function
returns an error; assemble `lowerdir=...`, `upperdir=...`, `workdir=...`;
issue the kernel mount with fstype "overlay" and
`flags |= syscall.O_RDONLY` when readonly. -/
def Mount (layerPaths : List String) (upperdirPath workdirPath rootfsPath : String)
    (readonly : Bool) (env : Env) : Result :=
  let lowerdir := String.intercalate ":" layerPaths
  if readonly && (upperdirPath != "" || workdirPath != "") then
    { err := some (GoError.msg ("upperdirPath: " ++ upperdirPath ++
        ", and workdirPath: " ++ workdirPath ++
        " must be emty when readonly==true")),
      created := [], removed := [], mountCalls := [] }
  else
    let options := ["lowerdir=" ++ lowerdir]
    -- upperdir creation
    if upperdirPath != "" && env.mkdirUpperErr.isSome then
      { err := some (GoError.wrap "failed to create upper directory in scratch space"
          (env.mkdirUpperErr.getD (GoError.msg ""))),
        created := [], removed := [], mountCalls := [] }
    else
      let created1 := if upperdirPath != "" then [upperdirPath] else []
      let options1 := if upperdirPath != "" then options ++ ["upperdir=" ++ upperdirPath] else options
      -- workdir creation
      if workdirPath != "" && env.mkdirWorkErr.isSome then
        { err := some (GoError.wrap "failed to create workdir in scratch space"
            (env.mkdirWorkErr.getD (GoError.msg ""))),
          created := created1, removed := created1.reverse, mountCalls := [] }
      else
        let created2 := created1 ++ (if workdirPath != "" then [workdirPath] else [])
        let options2 := if workdirPath != "" then options1 ++ ["workdir=" ++ workdirPath] else options1
        -- rootfs creation
        if env.mkdirRootfsErr.isSome then
          { err := some (GoError.wrap
              ("failed to create directory for container root filesystem " ++ rootfsPath)
              (env.mkdirRootfsErr.getD (GoError.msg ""))),
            created := created2, removed := created2.reverse, mountCalls := [] }
        else
          let created3 := created2 ++ [rootfsPath]
          let flags := if readonly then O_RDONLY else 0
          let call : MountCall :=
            { source := "overlay", target := rootfsPath, fstype := "overlay",
              flags := flags, data := String.intercalate "," options2 }
          match env.mountErr with
          | some e =>
              { err := some (GoError.wrap
                  ("failed to mount container root filesystem using overlayfs " ++ rootfsPath) e),
                created := created3, removed := created3.reverse, mountCalls := [call] }
          | none =>
              { err := none, created := created3, removed := [], mountCalls := [call] }

end overlay

namespace gcs

/-- `prot.MessageBase`: the request fields the shutdown handlers read. -/
structure MessageBase where
  containerID : String
  activityID : String
deriving DecidableEq, Repr

/-- `oslayer` signals used by the shutdown handlers. -/
inductive Signal where
  | SIGKILL
  | SIGTERM
deriving DecidableEq, Repr

/-- An event on the `bridge.ResponseWriter`: either a success `Write` of a
bare `prot.MessageResponseBase` carrying only the activity id, or an
`Error` write. -/
inductive RWEvent where
  | writeSuccess (activityID : String)
  | writeError (e : GoError)
deriving DecidableEq, Repr

/-- `Handler.signalContainer` from the gcs handler file.  The JSON
unmarshal of the request body is abstracted into its outcome (`none` when
the payload fails to parse); `coreErr` is the outcome of the supervisor
call `core.SignalContainer`.  Returns the `(containerID, signal)` calls
issued to the supervisor and the response-writer events, in order. -/
def signalContainer (msg : Option MessageBase) (coreErr : Option GoError)
    (signal : Signal) : List (String × Signal) × List RWEvent :=
  match msg with
  | none =>
      ([], [RWEvent.writeError (GoError.msg "failed to unmarshal JSON for message")])
  | some b =>
      match coreErr with
      | some e => ([(b.containerID, signal)], [RWEvent.writeError e])
      | none => ([(b.containerID, signal)], [RWEvent.writeSuccess b.activityID])

/-- `Handler.killContainer` (the handler registered for
`ComputeSystemShutdownForcedV1`): forwards to `signalContainer` with
`oslayer.SIGKILL`. -/
def killContainer (msg : Option MessageBase) (coreErr : Option GoError) :
    List (String × Signal) × List RWEvent :=
  signalContainer msg coreErr Signal.SIGKILL

/-- `Handler.shutdownContainer` (the handler registered for
`ComputeSystemShutdownGracefulV1`): forwards to `signalContainer` with
`oslayer.SIGTERM`. -/
def shutdownContainer (msg : Option MessageBase) (coreErr : Option GoError) :
    List (String × Signal) × List RWEvent :=
  signalContainer msg coreErr Signal.SIGTERM

end gcs

/-! ## Helper lemmas -/

theorem string_append_dev_ne_empty (n : String) : ("/dev/" ++ n) ≠ "" := by
  intro he
  have := congrArg String.length he
  simp [String.length_append] at this
  exact absurd this.1 (by decide)

theorem scsiRegistry_load_del (r : scsi.ScsiRegistry) (k : String) :
    (r.del k).load k = none := by
  induction r with
  | nil => rfl
  | cons p rest ih =>
      by_cases h : p.1 == k
      · simp [scsi.ScsiRegistry.del, scsi.ScsiRegistry.load, h] at ih ⊢
        simpa [scsi.ScsiRegistry.del, scsi.ScsiRegistry.load] using ih
      · simp only [scsi.ScsiRegistry.del, List.filter] at ih ⊢
        simp [h, scsi.ScsiRegistry.load, List.find?] at ih ⊢
        exact ih

theorem scsiRegistry_load_store (r : scsi.ScsiRegistry) (k : String) (s : scsi.Scsi) :
    (r.store k s).load k = some s := by
  induction r with
  | nil => simp [scsi.ScsiRegistry.store, scsi.ScsiRegistry.load, List.find?]
  | cons p rest ih =>
      by_cases h : p.1 == k
      · simp [scsi.ScsiRegistry.store, h, scsi.ScsiRegistry.load, List.find?]
      · simp [scsi.ScsiRegistry.store, h, scsi.ScsiRegistry.load, List.find?] at ih ⊢
        exact ih

theorem pmemRegistry_load_store (r : pmem.PmemRegistry) (k : String) (s : pmem.Pmem) :
    (r.store k s).load k = some s := by
  induction r with
  | nil => simp [pmem.PmemRegistry.store, pmem.PmemRegistry.load, List.find?]
  | cons p rest ih =>
      by_cases h : p.1 == k
      · simp [pmem.PmemRegistry.store, h, pmem.PmemRegistry.load, List.find?]
      · simp [pmem.PmemRegistry.store, h, pmem.PmemRegistry.load, List.find?] at ih ⊢
        exact ih

/-! ## Claim theorems -/

/-- Claim C1 (refuted by the code): the claim requires the mount
primitive to invoke the release hook exactly once on its failure path,
balancing the pre-incremented refCount.  In the source,
`storage.GetOrCreateMount` ignores its cleanup argument entirely — its
hook-invocation count is 0 on every path — so a failing `MountTo` returns
the error with the hook never invoked and the entry refCount left
incremented, for SCSI and PMEM alike. -/
theorem mountTo_failure_hook_never_invoked (s : scsi.Scsi) (p : pmem.Pmem)
    (target : String) (readonly : Bool) (e : GoError) :
    (s.MountTo target readonly (some e)).1.refCount = s.refCount + 1 ∧
    (s.MountTo target readonly (some e)).2.2 = 0 ∧
    (∃ e2, (s.MountTo target readonly (some e)).2.1 = Except.error e2) ∧
    (p.MountTo target (some e)).1.refCount = p.refCount + 1 ∧
    (p.MountTo target (some e)).2.2 = 0 ∧
    (∃ e2, (p.MountTo target (some e)).2.1 = Except.error e2) :=
  ⟨rfl, rfl, ⟨_, rfl⟩, rfl, rfl, ⟨_, rfl⟩⟩

/-- Claim C2 (refuted by the code): after a successful `MountTo` followed
by a successful `Mount.Unmount`, the claim requires refCount back at 0
with `eject` invoked exactly once.  In the source the returned `Mount`
carries no release hook (`GetOrCreateMount` drops it), so the hook
invocation count of the whole scenario is 0 and the entry refCount stays
at 1 after the unmount succeeds. -/
theorem scsi_refcount_unmount_no_eject :
    ∃ (s1 : scsi.Scsi) (m : storage.Mount),
      (⟨scsi.scsiDevicesKey 1 1, 1, 1, "/dev/sda", none, 0⟩ : scsi.Scsi).MountTo
          "/t" false none = (s1, Except.ok m, 0) ∧
      s1.refCount = 1 ∧
      m.Unmount none 0 = (none, { m with mounted := false }) :=
  ⟨_, _, rfl, rfl, rfl⟩

/-- Claim C3 (refuted by the code): when `eject` brings refCount to 0 the
claim requires the registry binding under the original key "0:0:1:1" to
be removed.  The source instead calls the registry delete with `s.source`
("/dev/sda"), so after a complete eject — refCount 0 and the single
"1\n" write to the sysfs delete node — the "0:0:1:1" binding is still
present and a later `OpenDevice(1,1)` would find the stale entry. -/
theorem scsi_eject_keeps_registry_entry :
    ∃ r, (⟨scsi.scsiDevicesKey 1 1, 1, 1, "/dev/sda", none, 1⟩ : scsi.Scsi).eject
        [(scsi.scsiDevicesKey 1 1, ⟨scsi.scsiDevicesKey 1 1, 1, 1, "/dev/sda", none, 1⟩)]
        none none = some r ∧
      r.1.refCount = 0 ∧
      r.2.2 = [("/sys/bus/scsi/devices/0:0:1:1/delete", "1\n")] ∧
      (r.2.1).load (scsi.scsiDevicesKey 1 1) =
        some ⟨scsi.scsiDevicesKey 1 1, 1, 1, "/dev/sda", none, 1⟩ :=
  ⟨_, rfl, rfl, rfl, rfl⟩

/-- Claim C4 (refuted by the code): the claim requires overlay mount
flags equal to MS_RDONLY when readonly is true.  The source computes
`flags |= syscall.O_RDONLY`, and O_RDONLY is the open(2) flag with value
0, so the kernel mount is invoked with flags 0 in both the readonly and
writable cases (fstype "overlay" and the options string do match the
claim). -/
theorem overlay_mount_readonly_flags_zero :
    (overlay.Mount ["/layer1", "/layer2"] "" "" "/rootfs" true {}).mountCalls =
      [{ source := "overlay", target := "/rootfs", fstype := "overlay",
         flags := O_RDONLY, data := "lowerdir=/layer1:/layer2" }] ∧
    (overlay.Mount ["/layer1", "/layer2"] "" "" "/rootfs" false {}).mountCalls =
      [{ source := "overlay", target := "/rootfs", fstype := "overlay",
         flags := 0, data := "lowerdir=/layer1:/layer2" }] ∧
    O_RDONLY = 0 ∧ MS_RDONLY = 1 :=
  ⟨rfl, rfl, rfl, rfl⟩

/-- Claim C5: once a `resolve` call has settled a SCSI entry — set its
`source` or its `resolveError` — any later `resolve` call leaves the
entry unchanged, does not run the sysfs scan again, and returns the same
outcome as the settling call: success when `source` is set, the identical
cached error when `resolveError` is set. -/
theorem scsi_resolve_at_most_once (s : scsi.Scsi) (rd rd2 : scsi.ReadDirResult) :
    ((s.resolve rd).2.1).resolve rd2 = ((s.resolve rd).1, (s.resolve rd).2.1, false) := by
  by_cases hs : s.source = ""
  · rcases he : s.resolveError with _ | e0
    · cases rd with
      | errOther e => simp [scsi.Scsi.resolve, hs, he]
      | notExistUntilTimeout => simp [scsi.Scsi.resolve, hs, he]
      | names l =>
        match l with
        | [] => simp [scsi.Scsi.resolve, hs, he]
        | [n] => simp [scsi.Scsi.resolve, hs, he, string_append_dev_ne_empty]
        | a :: b :: rest => simp [scsi.Scsi.resolve, hs, he]
    · simp [scsi.Scsi.resolve, hs, he]
  · simp [scsi.Scsi.resolve, hs]

/-- Claim C6: `scsi.OpenDevice` leaves the registry with no binding for
the key when resolution fails (returning the error), and with the
returned entry bound under the key on success. -/
theorem scsi_openDevice_registry (reg : scsi.ScsiRegistry) (c l : Nat)
    (rd : scsi.ReadDirResult) :
    (∀ e, (scsi.OpenDevice reg c l rd).1 = Except.error e →
      ((scsi.OpenDevice reg c l rd).2).load (scsi.scsiDevicesKey c l) = none) ∧
    (∀ s, (scsi.OpenDevice reg c l rd).1 = Except.ok s →
      ((scsi.OpenDevice reg c l rd).2).load (scsi.scsiDevicesKey c l) = some s) := by
  rcases hl : reg.load (scsi.scsiDevicesKey c l) with _ | s0
  · rcases hres : (⟨scsi.scsiDevicesKey c l, c, l, "", none, 0⟩ : scsi.Scsi).resolve rd
      with ⟨r, s1, sc⟩
    rcases r with _ | e0
    · have heq : scsi.OpenDevice reg c l rd =
          (Except.ok s1, ((reg.store (scsi.scsiDevicesKey c l)
            ⟨scsi.scsiDevicesKey c l, c, l, "", none, 0⟩).store
              (scsi.scsiDevicesKey c l) s1)) := by
        simp [scsi.OpenDevice, hl, hres]
      rw [heq]
      exact ⟨fun e he => Except.noConfusion he,
        fun s hs => by cases hs; exact scsiRegistry_load_store _ _ _⟩
    · have heq : scsi.OpenDevice reg c l rd =
          (Except.error e0, ((reg.store (scsi.scsiDevicesKey c l)
            ⟨scsi.scsiDevicesKey c l, c, l, "", none, 0⟩).del
              (scsi.scsiDevicesKey c l))) := by
        simp [scsi.OpenDevice, hl, hres]
      rw [heq]
      exact ⟨fun e _ => scsiRegistry_load_del _ _,
        fun s hs => Except.noConfusion hs⟩
  · rcases hres : s0.resolve rd with ⟨r, s1, sc⟩
    rcases r with _ | e0
    · have heq : scsi.OpenDevice reg c l rd =
          (Except.ok s1, ((reg.store (scsi.scsiDevicesKey c l) s0).store
            (scsi.scsiDevicesKey c l) s1)) := by
        simp [scsi.OpenDevice, hl, hres]
      rw [heq]
      exact ⟨fun e he => Except.noConfusion he,
        fun s hs => by cases hs; exact scsiRegistry_load_store _ _ _⟩
    · have heq : scsi.OpenDevice reg c l rd =
          (Except.error e0, ((reg.store (scsi.scsiDevicesKey c l) s0).del
            (scsi.scsiDevicesKey c l))) := by
        simp [scsi.OpenDevice, hl, hres]
      rw [heq]
      exact ⟨fun e _ => scsiRegistry_load_del _ _,
        fun s hs => Except.noConfusion hs⟩

/-- Claim C6 witness: a concrete failed resolution (unrelated readdir
error) leaves no binding for key 0:0:1:1, and a concrete successful one
(single device sda) leaves the returned entry bound. -/
theorem scsi_openDevice_registry_witness :
    ((scsi.OpenDevice [] 1 1 (scsi.ReadDirResult.errOther (GoError.msg "boom"))).2).load
      (scsi.scsiDevicesKey 1 1) = none ∧
    ((scsi.OpenDevice [] 1 1 (scsi.ReadDirResult.names ["sda"])).2).load
      (scsi.scsiDevicesKey 1 1) =
      some { key := scsi.scsiDevicesKey 1 1, controller := 1, lun := 1,
             source := "/dev/sda" } :=
  ⟨(scsi_openDevice_registry [] 1 1
      (scsi.ReadDirResult.errOther (GoError.msg "boom"))).1 (GoError.msg "boom") rfl,
   (scsi_openDevice_registry [] 1 1 (scsi.ReadDirResult.names ["sda"])).2
      { key := scsi.scsiDevicesKey 1 1, controller := 1, lun := 1,
        source := "/dev/sda" } rfl⟩

/-- Claim C7: every `overlay.Mount` invocation that returns an error has
removed exactly the directories it created (in reverse creation order, as
the deferred cleanups run), and an invocation that succeeds removes
nothing. -/
theorem overlay_mount_cleanup (layerPaths : List String)
    (upperdirPath workdirPath rootfsPath : String) (readonly : Bool)
    (env : overlay.Env) :
    ((overlay.Mount layerPaths upperdirPath workdirPath rootfsPath readonly env).err ≠ none →
      (overlay.Mount layerPaths upperdirPath workdirPath rootfsPath readonly env).removed =
        (overlay.Mount layerPaths upperdirPath workdirPath rootfsPath readonly env).created.reverse) ∧
    ((overlay.Mount layerPaths upperdirPath workdirPath rootfsPath readonly env).err = none →
      (overlay.Mount layerPaths upperdirPath workdirPath rootfsPath readonly env).removed = []) := by
  by_cases c0 : (readonly && (upperdirPath != "" || workdirPath != "")) = true
  · simp [overlay.Mount, c0]
  · by_cases c1 : (upperdirPath != "" && env.mkdirUpperErr.isSome) = true
    · simp [overlay.Mount, c0, c1]
    · by_cases c2 : (workdirPath != "" && env.mkdirWorkErr.isSome) = true
      · simp [overlay.Mount, c0, c1, c2]
      · by_cases c3 : env.mkdirRootfsErr.isSome = true
        · simp [overlay.Mount, c0, c1, c2, c3]
        · rcases hm : env.mountErr with _ | e
          · simp [overlay.Mount, c0, c1, c2, c3, hm]
          · simp [overlay.Mount, c0, c1, c2, c3, hm]

/-- Claim C7 witness: a concrete invocation whose kernel mount fails
removes exactly the three directories it created, in reverse order. -/
theorem overlay_mount_cleanup_witness :
    (overlay.Mount ["/a"] "/u" "/w" "/r" false
      { mountErr := some (GoError.msg "boom") }).removed =
    (overlay.Mount ["/a"] "/u" "/w" "/r" false
      { mountErr := some (GoError.msg "boom") }).created.reverse :=
  (overlay_mount_cleanup ["/a"] "/u" "/w" "/r" false
    { mountErr := some (GoError.msg "boom") }).1 (by decide)

/-- Claim C8: for every `Mount` m, `Unmount` on an unmounted m returns
`ErrPathNotMounted` and changes nothing; when the kernel unmount fails it
returns the wrapped error and `mounted` stays true; when the kernel
unmount succeeds `mounted` becomes false, so a second `Unmount` of the
resulting mount returns `ErrPathNotMounted`. -/
theorem mount_unmount_state_machine (m : storage.Mount) (flags : Int) :
    (m.mounted = false →
      ∀ env : Option GoError, m.Unmount env flags = (some storage.ErrPathNotMounted, m)) ∧
    (m.mounted = true → ∀ e : GoError,
      m.Unmount (some e) flags =
        (some (GoError.wrap ("failed to unmount path: " ++ m.target) e), m)) ∧
    (m.mounted = true →
      m.Unmount none flags = (none, { m with mounted := false }) ∧
      ∀ (env2 : Option GoError) (flags2 : Int),
        (({ m with mounted := false } : storage.Mount).Unmount env2 flags2).1 =
          some storage.ErrPathNotMounted) := by
  refine ⟨?_, ?_, ?_⟩
  · intro h env
    simp [storage.Mount.Unmount, h]
  · intro h e
    simp [storage.Mount.Unmount, h]
  · intro h
    constructor
    · simp [storage.Mount.Unmount, h]
    · intro env2 flags2
      simp [storage.Mount.Unmount]

/-- Claim C8 witness: a concrete mounted `Mount` whose kernel unmount
succeeds transitions to unmounted, instantiating the third conjunct. -/
theorem mount_unmount_state_machine_witness :
    (({ target := "/t", mounted := true } : storage.Mount).Unmount none 0 =
      (none, { target := "/t", mounted := false }) ) ∧
    ((({ target := "/t", mounted := true } : storage.Mount).Unmount (some (GoError.msg "boom")) 0).2.mounted = true) := by
  constructor
  · exact ((mount_unmount_state_machine { target := "/t", mounted := true } 0).2.2 rfl).1
  · have := (mount_unmount_state_machine { target := "/t", mounted := true } 0).2.1 rfl (GoError.msg "boom")
    rw [this]

/-- Claim C9: the handler for ShutdownForced invokes the supervisor with
SIGKILL and the handler for ShutdownGraceful invokes it with SIGTERM; in
both cases, a well-formed request whose supervisor call succeeds produces
exactly one success response carrying only the activity id. -/
theorem shutdown_handlers_dispatch (b : gcs.MessageBase) (coreErr : Option GoError) :
    (gcs.killContainer (some b) coreErr).1 = [(b.containerID, gcs.Signal.SIGKILL)] ∧
    (gcs.shutdownContainer (some b) coreErr).1 = [(b.containerID, gcs.Signal.SIGTERM)] ∧
    (coreErr = none →
      (gcs.killContainer (some b) coreErr).2 = [gcs.RWEvent.writeSuccess b.activityID] ∧
      (gcs.shutdownContainer (some b) coreErr).2 = [gcs.RWEvent.writeSuccess b.activityID]) := by
  refine ⟨?_, ?_, ?_⟩
  · cases coreErr <;> rfl
  · cases coreErr <;> rfl
  · intro h
    subst h
    exact ⟨rfl, rfl⟩

/-- Claim C9 witness: a concrete well-formed request with a succeeding
supervisor, instantiating the success-envelope conjunct. -/
theorem shutdown_handlers_dispatch_witness :
    (gcs.killContainer (some { containerID := "test", activityID := "act" }) none).2 =
      [gcs.RWEvent.writeSuccess "act"] :=
  ((shutdown_handlers_dispatch { containerID := "test", activityID := "act" } none).2.2 rfl).1

/-- Claim C10: PMEM `OpenDevice` never returns an error — for every
device number it returns an entry (under the decimal key) — and a repeat
call with the same device number returns the same entry with the registry
unchanged. -/
theorem pmem_openDevice_total_and_stable (reg : pmem.PmemRegistry) (n : Nat) :
    (∃ p : pmem.Pmem, (pmem.OpenDevice reg n).1 = Except.ok p) ∧
    pmem.OpenDevice (pmem.OpenDevice reg n).2 n =
      ((pmem.OpenDevice reg n).1, (pmem.OpenDevice reg n).2) := by
  rcases h : reg.load (pmem.pmemDeviceKey n) with _ | p
  · have h1 : pmem.OpenDevice reg n =
        (Except.ok { deviceNumber := n },
          reg.store (pmem.pmemDeviceKey n) { deviceNumber := n }) := by
      simp [pmem.OpenDevice, h]
    have h2 : (reg.store (pmem.pmemDeviceKey n)
        ({ deviceNumber := n } : pmem.Pmem)).load (pmem.pmemDeviceKey n) =
        some { deviceNumber := n } :=
      pmemRegistry_load_store reg (pmem.pmemDeviceKey n) { deviceNumber := n }
    rw [h1]
    exact ⟨⟨_, rfl⟩, by simp [pmem.OpenDevice, h2]⟩
  · have h1 : pmem.OpenDevice reg n = (Except.ok p, reg) := by
      simp [pmem.OpenDevice, h]
    rw [h1]
    exact ⟨⟨p, rfl⟩, by simp [pmem.OpenDevice, h]⟩
